import Mathlib

/-!
Shallow embedding of the browser-side upload-and-poll controller in
`src/frontend/static/frontend/js/scripts.js` (the repository's only source
file), together with theorems settling the specification claims about it.

The JavaScript is a DOM controller: a file-picker change handler that
renders previews, an upload-button click handler that POSTs the selected
files and starts a 3-second poll loop, and a `renderResults` function that
replaces the results region with HTML built from the polled JSON record.
We model the JSON values as Lean structures (absent JSON fields become
`Option.none`), DOM and network effects as explicit state
(`ControllerState`, `PreviewState`), and each handler as a pure function
on that state.  JavaScript truthiness on strings (`''` is falsy) is
modelled explicitly by `jsOrString`.
-/

/-- One provider/model answer object, as read from the polled JSON
(`answer.provider`, `answer.model`, `answer.content`, `answer.status` in
`renderResults`).  `content` may be absent in the JSON. -/
structure Answer where
  provider : String
  model : String
  content : Option String
  status : String
deriving DecidableEq

/-- A question object (`photo.question`): `extracted_text` and `answers`
may each be absent. -/
structure Question where
  extracted_text : Option String
  answers : Option (List Answer)
deriving DecidableEq

/-- A photo object (`photo.filename`, `photo.question`); `question` may be
absent while extraction is still running. -/
structure Photo where
  filename : String
  question : Option Question
deriving DecidableEq

/-- The Upload Record returned by the status endpoint (`data` in
`pollForResults`/`renderResults`).  `photos := none` models a JSON body in
which `photos` is absent or not an array, so that `data.photos.forEach`
would throw. -/
structure UploadRecord where
  status : String
  photos : Option (List Photo)
deriving DecidableEq

/-- JavaScript `c || d` on an optional string: an absent value and the
empty string are both falsy, so both fall back to the default `d`. -/
def jsOrString (c : Option String) (d : String) : String :=
  match c with
  | some s => if s = "" then d else s
  | none => d

/-- The `questionText` local of `renderResults`: starts as the placeholder
`"Extracting text..."` and is replaced only when `photo.question` and
`photo.question.extracted_text` are both truthy. -/
def questionTextOf (p : Photo) : String :=
  match p.question with
  | some q => jsOrString q.extracted_text "Extracting text..."
  | none => "Extracting text..."

/-- The content of one rendered answer card (`answerCard.innerHTML`):
provider, model, shown content (`answer.content || 'No answer yet...'`),
and the answer's own status. -/
structure AnswerCard where
  provider : String
  model : String
  contentShown : String
  status : String
deriving DecidableEq

/-- Build one answer card, as the `answers.forEach` body does. -/
def renderAnswer (a : Answer) : AnswerCard :=
  { provider := a.provider
    model := a.model
    contentShown := jsOrString a.content "No answer yet..."
    status := a.status }

/-- The content of one rendered photo card (`resultCard`): the filename
header, the shown extracted text, and the answer cards appended to the
card's `.answer-grid`. -/
structure PhotoCard where
  filename : String
  extractedShown : String
  answerCards : List AnswerCard
deriving DecidableEq

/-- Build one photo card, as the `data.photos.forEach` body does: answer
cards are appended only when `photo.question && photo.question.answers`
is truthy, one per answer in order. -/
def renderPhoto (p : Photo) : PhotoCard :=
  { filename := p.filename
    extractedShown := questionTextOf p
    answerCards :=
      match p.question with
      | some q =>
        match q.answers with
        | some l => l.map renderAnswer
        | none => []
      | none => [] }

/-- The full rendered results region: the `<h2>` header showing the
record's overall status, then one card per photo in order. -/
structure RenderedResults where
  headerStatus : String
  cards : List PhotoCard
deriving DecidableEq

/-- `renderResults(data)`: when `data.photos` is an array, the region ends
up as the status header plus one card per photo.  When `photos` is absent
or not an array, `data.photos.forEach` throws a TypeError after the header
assignment — modelled as `Except.error ()`. -/
def renderResults (data : UploadRecord) : Except Unit RenderedResults :=
  match data.photos with
  | none => Except.error ()
  | some ps => Except.ok { headerStatus := data.status, cards := ps.map renderPhoto }

/-- What the results region (`#results-section`) holds: a plain HTML
message written by a handler, a complete render, or only the status
header (when `renderResults` threw right after writing it). -/
inductive ResultsContent
  | message (html : String)
  | rendered (r : RenderedResults)
  | headerOnly (status : String)
deriving DecidableEq

/-- Applying `renderResults` to the results region.  The first statement
`resultsSection.innerHTML = ...` discards the previous content entirely,
so the outcome depends only on the record. -/
def renderInto (_region : ResultsContent) (data : UploadRecord) : ResultsContent :=
  match renderResults data with
  | Except.ok r => ResultsContent.rendered r
  | Except.error _ => ResultsContent.headerOnly data.status

/-- `renderResults` as a statement-level step that also returns the value
the `data` reference holds after execution: the body only reads
`data.status`, `data.photos`, `photo.*`, `question.*` and `answer.*`
fields and assigns none of them, so the record value threads through
unchanged. -/
def renderResultsStep (data : UploadRecord) (region : ResultsContent) :
    ResultsContent × UploadRecord :=
  (renderInto region data, data)

/-- C6: the render step is idempotent — rendering the same record twice
in succession leaves the results region with exactly the content a single
render produces, because `resultsSection.innerHTML = ...` replaces the
region wholesale before cards are appended. -/
theorem renderInto_idempotent (region : ResultsContent) (data : UploadRecord) :
    renderInto (renderInto region data) data = renderInto region data := by
  unfold renderInto
  cases renderResults data <;> rfl

/-- C7: a photo whose `question` field is absent renders with the
placeholder `"Extracting text..."` as its shown extracted text and with
no answer cards. -/
theorem renderResults_absent_question (data : UploadRecord) (ps : List Photo)
    (p : Photo) (i : Nat) (hp : data.photos = some ps) (hip : ps[i]? = some p)
    (hq : p.question = none) :
    ∃ r, renderResults data = Except.ok r ∧
      r.cards[i]? = some { filename := p.filename
                           extractedShown := "Extracting text..."
                           answerCards := [] } := by
  refine ⟨{ headerStatus := data.status, cards := ps.map renderPhoto }, ?_, ?_⟩
  · simp [renderResults, hp]
  · simp only [List.getElem?_map, hip, Option.map_some']
    simp [renderPhoto, questionTextOf, hq]

theorem renderResults_absent_question_witness :
    ∃ r, renderResults { status := "processing",
                         photos := some [{ filename := "a.png", question := none }] }
        = Except.ok r ∧
      r.cards[0]? = some { filename := "a.png"
                           extractedShown := "Extracting text..."
                           answerCards := [] } :=
  renderResults_absent_question
    { status := "processing", photos := some [{ filename := "a.png", question := none }] }
    [{ filename := "a.png", question := none }]
    { filename := "a.png", question := none } 0 rfl rfl rfl

/-- C8: the render step does not mutate its input record — the record
value after rendering, including its `status` and `photos` fields, is
exactly the value passed in, since the body performs only field reads. -/
theorem renderResultsStep_no_mutation (data : UploadRecord) (region : ResultsContent) :
    (renderResultsStep data region).2 = data ∧
      (renderResultsStep data region).2.status = data.status ∧
      (renderResultsStep data region).2.photos = data.photos :=
  ⟨rfl, rfl, rfl⟩

/-- A network request issued by the controller: method, URL, and the
multipart form parts (field name, filename) in append order. -/
structure Request where
  method : String
  url : String
  parts : List (String × String)
deriving DecidableEq

/-- Outcome of a `fetch` call as the handlers observe it: a
transport-level failure (rejected promise), or an HTTP response with a
status code and a JSON body that either parses to `α` or fails to parse
(`response.json()` rejecting). -/
inductive Fetch (α : Type)
  | networkError
  | response (status : Nat) (body : Except Unit α)

/-- `response.ok`: status in the 2xx range. -/
def statusOk (st : Nat) : Bool :=
  decide (200 ≤ st) && decide (st ≤ 299)

/-- Whether a fetch outcome takes the handler's `catch` path: transport
failure, non-2xx status (the handler throws on `!response.ok`), or a JSON
parse failure. -/
def fetchFails {α : Type} : Fetch α → Bool
  | Fetch.networkError => true
  | Fetch.response st body =>
    if statusOk st then
      match body with
      | Except.error _ => true
      | Except.ok _ => false
    else true

/-- The controller's observable state: the upload button (`disabled`,
`textContent`), the results region, whether the `setInterval` poll timer
is active, the `alert` messages shown, and the log of network requests
issued. -/
structure ControllerState where
  buttonDisabled : Bool
  buttonText : String
  results : ResultsContent
  timerActive : Bool
  alerts : List String
  requests : List Request
deriving DecidableEq

/-- The error HTML written by the poll loop's `catch`. -/
def errorFetchingHtml : String :=
  "<p class=\"status error\">Error fetching results. Please check the console.</p>"

/-- The error HTML written by the upload handler's `catch`. -/
def uploadFailedHtml : String :=
  "<p class=\"status error\">Upload failed. Please try again.</p>"

/-- The transient message shown while the upload request is in flight. -/
def processingHtml : String := "<p>Processing your images...</p>"

/-- The `alert` text for an empty selection. -/
def alertEmptySelection : String := "Please select one or more images to upload."

/-- The button label restored whenever the attempt ends. -/
def defaultButtonText : String := "Upload and Process"

/-- The message `pollForResults` writes before the first tick. -/
def pollingHtml (uid : String) : String :=
  "<p>Polling for results for upload ID: " ++ uid ++ "</p>"

/-- The upload request: `POST /api/uploads/` with one `uploaded_photos`
part per selected file, appended in selection order. -/
def uploadRequest (files : List String) : Request :=
  { method := "POST"
    url := "/api/uploads/"
    parts := files.map (fun fn => ("uploaded_photos", fn)) }

/-- One poll-tick request: `GET /api/uploads/{uploadId}/`. -/
def pollRequest (uid : String) : Request :=
  { method := "GET", url := "/api/uploads/" ++ uid ++ "/", parts := [] }

/-- The JSON body of a successful upload response; the handler reads only
`result.id`. -/
structure UploadResult where
  id : String
deriving DecidableEq

/-- The synchronous prefix of the click handler once validation passed:
disable the button, set its label, show the processing message, build the
form data and issue the POST (scripts.js lines 37-50). -/
def uploadClickStart (files : List String) (s : ControllerState) : ControllerState :=
  { s with buttonDisabled := true
           buttonText := "Uploading..."
           results := ResultsContent.message processingHtml
           requests := s.requests ++ [uploadRequest files] }

/-- The upload handler's `catch` block: error message, re-enable the
button, restore its label (scripts.js lines 59-64). -/
def uploadFailState (s : ControllerState) : ControllerState :=
  { s with results := ResultsContent.message uploadFailedHtml
           buttonDisabled := false
           buttonText := defaultButtonText }

/-- Entering `pollForResults(uploadId)`: write the polling message and
start the interval timer. -/
def pollStart (uid : String) (s : ControllerState) : ControllerState :=
  { s with results := ResultsContent.message (pollingHtml uid)
           timerActive := true }

/-- Resolution of the upload fetch (scripts.js lines 46-64): on a 2xx
response whose body parses, start polling for `result.id`; on transport
failure, non-2xx, or parse failure, take the `catch` path. -/
def uploadClickSettle (s : ControllerState) (f : Fetch UploadResult) : ControllerState :=
  match f with
  | Fetch.networkError => uploadFailState s
  | Fetch.response st body =>
    if statusOk st then
      match body with
      | Except.error _ => uploadFailState s
      | Except.ok result => pollStart result.id s
    else uploadFailState s

/-- The whole click handler (scripts.js lines 31-65): an empty selection
only shows the validation alert and returns; otherwise the synchronous
prefix runs and the fetch outcome `f` is handled. -/
def uploadClick (files : List String) (s : ControllerState)
    (f : Fetch UploadResult) : ControllerState :=
  if files.length = 0 then
    { s with alerts := s.alerts ++ [alertEmptySelection] }
  else
    uploadClickSettle (uploadClickStart files s) f

/-- The controller state right after `DOMContentLoaded`: button enabled
with its default label, empty results region, no timer, no alerts, no
requests issued. -/
def initialControllerState : ControllerState :=
  { buttonDisabled := false
    buttonText := defaultButtonText
    results := ResultsContent.message ""
    timerActive := false
    alerts := []
    requests := [] }

theorem uploadClickSettle_requests (s : ControllerState) (f : Fetch UploadResult) :
    (uploadClickSettle s f).requests = s.requests := by
  cases f with
  | networkError => rfl
  | response st body =>
    dsimp only [uploadClickSettle]
    split
    · cases body with
      | error e => rfl
      | ok r => rfl
    · rfl

/-- C2: triggering upload with an empty selection only appends the
validation alert — zero network requests are issued and the rest of the
controller state, the enabled trigger control included, is unchanged. -/
theorem uploadClick_empty_selection (s : ControllerState) (f : Fetch UploadResult) :
    uploadClick [] s f = { s with alerts := s.alerts ++ [alertEmptySelection] } ∧
      (uploadClick [] s f).requests = s.requests ∧
      (uploadClick [] s f).buttonDisabled = s.buttonDisabled ∧
      (uploadClick [] s f).timerActive = s.timerActive := by
  refine ⟨rfl, rfl, rfl, rfl⟩

/-- C3: triggering upload on a non-empty selection disables the trigger
control and issues exactly one request — a `POST /api/uploads/` whose
multipart payload has one `uploaded_photos` part per selected file in
selection order — whatever the fetch outcome. -/
theorem uploadClick_single_request (files : List String) (s : ControllerState)
    (f : Fetch UploadResult) (hne : files ≠ []) :
    (uploadClickStart files s).buttonDisabled = true ∧
      (uploadClick files s f).requests = s.requests ++ [uploadRequest files] ∧
      (uploadRequest files).method = "POST" ∧
      (uploadRequest files).url = "/api/uploads/" ∧
      (uploadRequest files).parts = files.map (fun fn => ("uploaded_photos", fn)) := by
  have hlen : ¬ files.length = 0 := by
    simpa [List.length_eq_zero] using hne
  refine ⟨rfl, ?_, rfl, rfl, rfl⟩
  rw [uploadClick, if_neg hlen, uploadClickSettle_requests]
  rfl

theorem uploadClick_single_request_witness :
    (uploadClickStart ["a.png", "b.png"] initialControllerState).buttonDisabled = true ∧
      (uploadClick ["a.png", "b.png"] initialControllerState Fetch.networkError).requests
        = initialControllerState.requests ++ [uploadRequest ["a.png", "b.png"]] ∧
      (uploadRequest ["a.png", "b.png"]).method = "POST" ∧
      (uploadRequest ["a.png", "b.png"]).url = "/api/uploads/" ∧
      (uploadRequest ["a.png", "b.png"]).parts
        = ["a.png", "b.png"].map (fun fn => ("uploaded_photos", fn)) :=
  uploadClick_single_request ["a.png", "b.png"] initialControllerState
    Fetch.networkError (by decide)

/-- The poll loop's `catch` block (scripts.js lines 83-89): cancel the
interval timer, write the fetch-error message, re-enable the button and
restore its label. -/
def pollErrorState (s : ControllerState) : ControllerState :=
  { s with timerActive := false
           results := ResultsContent.message errorFetchingHtml
           buttonDisabled := false
           buttonText := defaultButtonText }

/-- The terminal-status test of the poll loop:
`data.status === 'done' || data.status === 'error'`. -/
def isTerminal (status : String) : Bool :=
  status = "done" || status = "error"

/-- One tick of the `setInterval` callback (scripts.js lines 69-90): fetch
the status endpoint, throw on `!response.ok`, parse the JSON, render it,
and on a terminal status cancel the timer and re-enable the button.  Any
throw — transport failure, non-2xx, parse failure, or `renderResults`
throwing — lands in the `catch` block. -/
def pollTick (uid : String) (s : ControllerState)
    (f : Fetch UploadRecord) : ControllerState :=
  let s0 := { s with requests := s.requests ++ [pollRequest uid] }
  match f with
  | Fetch.networkError => pollErrorState s0
  | Fetch.response st body =>
    if statusOk st then
      match body with
      | Except.error _ => pollErrorState s0
      | Except.ok data =>
        match renderResults data with
        | Except.error _ => pollErrorState s0
        | Except.ok r =>
          let s1 := { s0 with results := ResultsContent.rendered r }
          if isTerminal data.status then
            { s1 with timerActive := false
                      buttonDisabled := false
                      buttonText := defaultButtonText }
          else s1
    else pollErrorState s0

/-- A polling session over a sequence of would-be tick outcomes: the
interval callback runs only while the timer is active; once
`clearInterval` has run, later scheduled ticks never fire. -/
def pollRun (uid : String) (s : ControllerState) :
    List (Fetch UploadRecord) → ControllerState
  | [] => s
  | f :: fs => if s.timerActive then pollRun uid (pollTick uid s f) fs else s

theorem pollRun_inactive (uid : String) (s : ControllerState)
    (h : s.timerActive = false) (fs : List (Fetch UploadRecord)) :
    pollRun uid s fs = s := by
  cases fs with
  | nil => rfl
  | cons f fs => simp [pollRun, h]

/-- C1: on a successful poll response (2xx, body parsed, `photos`
present), the timer is cancelled after rendering exactly when the
record's status is `"done"` or `"error"`; in that terminal case the
trigger control is re-enabled, and on a non-terminal status the timer
stays active.  In both cases the results region holds the render of the
record. -/
theorem pollTick_terminal_cancels (uid : String) (s : ControllerState)
    (st : Nat) (data : UploadRecord) (ps : List Photo)
    (hactive : s.timerActive = true) (hok : statusOk st = true)
    (hp : data.photos = some ps) :
    ((pollTick uid s (Fetch.response st (Except.ok data))).timerActive = false
        ↔ isTerminal data.status = true) ∧
      (isTerminal data.status = true →
        (pollTick uid s (Fetch.response st (Except.ok data))).buttonDisabled = false) ∧
      (isTerminal data.status = false →
        (pollTick uid s (Fetch.response st (Except.ok data))).timerActive = true) ∧
      (pollTick uid s (Fetch.response st (Except.ok data))).results
        = ResultsContent.rendered { headerStatus := data.status
                                    cards := ps.map renderPhoto } := by
  have hrender : renderResults data
      = Except.ok { headerStatus := data.status, cards := ps.map renderPhoto } := by
    simp [renderResults, hp]
  by_cases hterm : isTerminal data.status = true
  · simp [pollTick, hok, hrender, hterm]
  · have hterm' : isTerminal data.status = false := by
      simpa using hterm
    simp [pollTick, hok, hrender, hterm', hactive]

theorem pollTick_terminal_cancels_witness :
    (((pollTick "abc" { initialControllerState with
          timerActive := true, buttonDisabled := true }
        (Fetch.response 200
          (Except.ok { status := "done", photos := some [] }))).timerActive = false
        ↔ isTerminal "done" = true) ∧
      (isTerminal "done" = true →
        (pollTick "abc" { initialControllerState with
            timerActive := true, buttonDisabled := true }
          (Fetch.response 200
            (Except.ok { status := "done", photos := some [] }))).buttonDisabled
          = false) ∧
      (isTerminal "done" = false →
        (pollTick "abc" { initialControllerState with
            timerActive := true, buttonDisabled := true }
          (Fetch.response 200
            (Except.ok { status := "done", photos := some [] }))).timerActive = true) ∧
      (pollTick "abc" { initialControllerState with
          timerActive := true, buttonDisabled := true }
        (Fetch.response 200
          (Except.ok { status := "done", photos := some [] }))).results
        = ResultsContent.rendered { headerStatus := "done", cards := [] }) :=
  pollTick_terminal_cancels "abc"
    { initialControllerState with timerActive := true, buttonDisabled := true }
    200 { status := "done", photos := some [] } [] rfl (by decide) rfl

/-- C4: any failing poll tick — transport failure, non-2xx status, or a
body that fails to parse — cancels the timer, replaces the results region
with the fetch-error message, re-enables the trigger control, and is
fatal: no later scheduled tick runs, whatever outcomes would have
followed. -/
theorem pollTick_failure_fatal (uid : String) (s : ControllerState)
    (f : Fetch UploadRecord) (hfail : fetchFails f = true) :
    (pollTick uid s f).timerActive = false ∧
      (pollTick uid s f).results = ResultsContent.message errorFetchingHtml ∧
      (pollTick uid s f).buttonDisabled = false ∧
      (pollTick uid s f).buttonText = defaultButtonText ∧
      ∀ fs, pollRun uid (pollTick uid s f) fs = pollTick uid s f := by
  have hstep : pollTick uid s f
      = pollErrorState { s with requests := s.requests ++ [pollRequest uid] } := by
    cases f with
    | networkError => rfl
    | response st body =>
      cases hst : statusOk st with
      | false => simp [pollTick, hst]
      | true =>
        cases body with
        | error e => simp [pollTick, hst]
        | ok data => simp [fetchFails, hst] at hfail
  rw [hstep]
  refine ⟨rfl, rfl, rfl, rfl, ?_⟩
  intro fs
  exact pollRun_inactive uid _ rfl fs

theorem pollTick_failure_fatal_witness :
    ((pollTick "abc" { initialControllerState with
          timerActive := true, buttonDisabled := true }
        Fetch.networkError).timerActive = false ∧
      (pollTick "abc" { initialControllerState with
          timerActive := true, buttonDisabled := true }
        Fetch.networkError).results = ResultsContent.message errorFetchingHtml ∧
      (pollTick "abc" { initialControllerState with
          timerActive := true, buttonDisabled := true }
        Fetch.networkError).buttonDisabled = false ∧
      (pollTick "abc" { initialControllerState with
          timerActive := true, buttonDisabled := true }
        Fetch.networkError).buttonText = defaultButtonText ∧
      ∀ fs, pollRun "abc"
          (pollTick "abc" { initialControllerState with
              timerActive := true, buttonDisabled := true } Fetch.networkError) fs
        = pollTick "abc" { initialControllerState with
            timerActive := true, buttonDisabled := true } Fetch.networkError) :=
  pollTick_failure_fatal "abc"
    { initialControllerState with timerActive := true, buttonDisabled := true }
    Fetch.networkError rfl

/-- C5: when the upload request fails (transport failure, non-2xx status,
or a body that fails to parse), the handler writes the upload-error
message, re-enables the trigger control, restores its label, leaves the
timer exactly as it was — polling never starts — and the single request
already issued is the only one; no retry happens. -/
theorem uploadClick_failure_no_poll (files : List String) (s : ControllerState)
    (f : Fetch UploadResult) (hne : files ≠ []) (hfail : fetchFails f = true) :
    (uploadClick files s f).results = ResultsContent.message uploadFailedHtml ∧
      (uploadClick files s f).buttonDisabled = false ∧
      (uploadClick files s f).buttonText = defaultButtonText ∧
      (uploadClick files s f).timerActive = s.timerActive ∧
      (uploadClick files s f).requests = s.requests ++ [uploadRequest files] := by
  have hlen : ¬ files.length = 0 := by
    simpa [List.length_eq_zero] using hne
  have hstep : uploadClick files s f = uploadFailState (uploadClickStart files s) := by
    rw [uploadClick, if_neg hlen]
    cases f with
    | networkError => rfl
    | response st body =>
      cases hst : statusOk st with
      | false => simp [uploadClickSettle, hst]
      | true =>
        cases body with
        | error e => simp [uploadClickSettle, hst]
        | ok r => simp [fetchFails, hst] at hfail
  rw [hstep]
  exact ⟨rfl, rfl, rfl, rfl, rfl⟩

theorem uploadClick_failure_no_poll_witness :
    ((uploadClick ["a.png"] initialControllerState
        (Fetch.response 500 (Except.error ()))).results
        = ResultsContent.message uploadFailedHtml ∧
      (uploadClick ["a.png"] initialControllerState
        (Fetch.response 500 (Except.error ()))).buttonDisabled = false ∧
      (uploadClick ["a.png"] initialControllerState
        (Fetch.response 500 (Except.error ()))).buttonText = defaultButtonText ∧
      (uploadClick ["a.png"] initialControllerState
        (Fetch.response 500 (Except.error ()))).timerActive
        = initialControllerState.timerActive ∧
      (uploadClick ["a.png"] initialControllerState
        (Fetch.response 500 (Except.error ()))).requests
        = initialControllerState.requests ++ [uploadRequest ["a.png"]]) :=
  uploadClick_failure_no_poll ["a.png"] initialControllerState
    (Fetch.response 500 (Except.error ())) (by decide) (by decide)

/-- C9: a poll tick whose response is 2xx and parses as JSON but whose
record lacks a `photos` array makes `renderResults` throw; the tick ends
in exactly the state a transport failure produces — timer cancelled, the
fetch-error message shown, trigger control re-enabled. -/
theorem pollTick_missing_photos_like_failure (uid : String) (s : ControllerState)
    (st : Nat) (data : UploadRecord)
    (hok : statusOk st = true) (hp : data.photos = none) :
    renderResults data = Except.error () ∧
      pollTick uid s (Fetch.response st (Except.ok data))
        = pollTick uid s Fetch.networkError ∧
      (pollTick uid s (Fetch.response st (Except.ok data))).timerActive = false ∧
      (pollTick uid s (Fetch.response st (Except.ok data))).results
        = ResultsContent.message errorFetchingHtml ∧
      (pollTick uid s (Fetch.response st (Except.ok data))).buttonDisabled = false := by
  have hrender : renderResults data = Except.error () := by
    simp [renderResults, hp]
  have hstep : pollTick uid s (Fetch.response st (Except.ok data))
      = pollErrorState { s with requests := s.requests ++ [pollRequest uid] } := by
    simp [pollTick, hok, hrender]
  exact ⟨hrender, by rw [hstep]; rfl, by rw [hstep]; rfl, by rw [hstep]; rfl,
    by rw [hstep]; rfl⟩

theorem pollTick_missing_photos_like_failure_witness :
    (renderResults { status := "processing", photos := none } = Except.error () ∧
      pollTick "abc" initialControllerState
        (Fetch.response 200 (Except.ok { status := "processing", photos := none }))
        = pollTick "abc" initialControllerState Fetch.networkError ∧
      (pollTick "abc" initialControllerState
        (Fetch.response 200
          (Except.ok { status := "processing", photos := none }))).timerActive
        = false ∧
      (pollTick "abc" initialControllerState
        (Fetch.response 200
          (Except.ok { status := "processing", photos := none }))).results
        = ResultsContent.message errorFetchingHtml ∧
      (pollTick "abc" initialControllerState
        (Fetch.response 200
          (Except.ok { status := "processing", photos := none }))).buttonDisabled
        = false) :=
  pollTick_missing_photos_like_failure "abc" initialControllerState 200
    { status := "processing", photos := none } (by decide) rfl

/-- The preview region (`#image-preview`) together with the file reads
still outstanding: `preview` lists the thumbnails currently appended (one
per completed read, identified by filename) and `pending` the files whose
`FileReader` has been started but whose `onload` has not yet fired. -/
structure PreviewState where
  preview : List String
  pending : List String
deriving DecidableEq

/-- The `change` handler plus `renderImagePreviews` (scripts.js lines
10-29): `selectedFiles` is replaced wholesale, `imagePreview.innerHTML =
''` clears the region synchronously, and one `FileReader` is started per
newly selected file.  Readers already started earlier are not cancelled,
so they stay pending. -/
def selectionChange (s : PreviewState) (files : List String) : PreviewState :=
  { preview := [], pending := s.pending ++ files }

/-- One `reader.onload` firing: the thumbnail for that file is appended
to the preview region and the read is no longer pending. -/
def completeRead (s : PreviewState) (f : String) : PreviewState :=
  if f ∈ s.pending then
    { preview := s.preview ++ [f], pending := s.pending.erase f }
  else s

/-- A sequence of `onload` completions, in whatever order the reads
finish. -/
def runCompletions : PreviewState → List String → PreviewState
  | s, [] => s
  | s, f :: fs => runCompletions (completeRead s f) fs

theorem runCompletions_preview_mem (files : List String) (order : List String)
    (st : PreviewState)
    (hpv : ∀ x ∈ st.preview, x ∈ files) (hpd : ∀ x ∈ st.pending, x ∈ files) :
    ∀ t ∈ (runCompletions st order).preview, t ∈ files := by
  induction order generalizing st with
  | nil => exact hpv
  | cons f fs ih =>
    show ∀ t ∈ (runCompletions (completeRead st f) fs).preview, t ∈ files
    refine ih (completeRead st f) ?_ ?_
    · intro x hx
      unfold completeRead at hx
      by_cases hf : f ∈ st.pending
      · rw [if_pos hf] at hx
        rcases List.mem_append.mp hx with h | h
        · exact hpv x h
        · rw [List.mem_singleton.mp h]
          exact hpd f hf
      · rw [if_neg hf] at hx
        exact hpv x hx
    · intro x hx
      unfold completeRead at hx
      by_cases hf : f ∈ st.pending
      · rw [if_pos hf] at hx
        exact hpd x (List.mem_of_mem_erase hx)
      · rw [if_neg hf] at hx
        exact hpd x hx

theorem runCompletions_no_pending (order : List String) (pv : List String) :
    runCompletions { preview := pv, pending := [] } order
      = { preview := pv, pending := [] } := by
  induction order with
  | nil => rfl
  | cons f fs ih =>
    show runCompletions (completeRead { preview := pv, pending := [] } f) fs
        = { preview := pv, pending := [] }
    have h : completeRead { preview := pv, pending := [] } f
        = { preview := pv, pending := [] } := by
      simp [completeRead]
    rw [h]
    exact ih

/-- C10 refutation: the unconditional claim — "thumbnails from a previous
selection never remain; in particular, changing the selection to an empty
file list leaves the preview region empty" — is false.  Starting from the
fresh state, selecting `stale.png` starts a file read; changing the
selection to the empty list clears the region but does not cancel that
read (the code never cancels a `FileReader`); when its `onload` then
fires, the stale thumbnail is appended, so the preview is non-empty and
shows a file that is not in the current (empty) selection. -/
theorem selectionChange_stale_thumbnail_counterexample :
    (runCompletions
        (selectionChange
          (selectionChange { preview := [], pending := [] } ["stale.png"]) [])
        ["stale.png"]).preview = ["stale.png"] ∧
      (runCompletions
        (selectionChange
          (selectionChange { preview := [], pending := [] } ["stale.png"]) [])
        ["stale.png"]).preview ≠ [] ∧
      "stale.png" ∉ ([] : List String) := by
  refine ⟨by decide, by decide, by decide⟩

/-- C10 (amended): a selection change clears the preview region before
any new thumbnail is appended; provided no file read from an earlier
selection is still in flight, every thumbnail the completions then append
is one of the newly selected files — stale thumbnails never remain — and
changing the selection to an empty file list leaves the preview region
empty no matter which completions fire.  (Reads still in flight from an
earlier selection are never cancelled and may append stale thumbnails
after the clear, as the counterexample shows.) -/
theorem selectionChange_clears_preview (s : PreviewState)
    (files order : List String) (t : String) (hq : s.pending = [])
    (ht : t ∈ (runCompletions (selectionChange s files) order).preview) :
    (selectionChange s files).preview = [] ∧ t ∈ files ∧
      (runCompletions (selectionChange s []) order).preview = [] := by
  refine ⟨rfl, ?_, ?_⟩
  · refine runCompletions_preview_mem files order (selectionChange s files) ?_ ?_ t ht
    · intro x hx
      exact absurd hx (List.not_mem_nil x)
    · intro x hx
      simpa [selectionChange, hq] using hx
  · have h : selectionChange s [] = { preview := [], pending := [] } := by
      simp [selectionChange, hq]
    rw [h, runCompletions_no_pending]

theorem selectionChange_clears_preview_witness :
    ((selectionChange { preview := ["stale.png"], pending := [] } ["a.png"]).preview
        = [] ∧
      "a.png" ∈ ["a.png"] ∧
      (runCompletions
        (selectionChange { preview := ["stale.png"], pending := [] } [])
        ["a.png"]).preview = []) :=
  selectionChange_clears_preview { preview := ["stale.png"], pending := [] }
    ["a.png"] ["a.png"] "a.png" rfl (by decide)
